import Mathlib

/-!
A shallow embedding of the raspi-exporter collection/exposition pipeline
(src/parser/throttled.rs, src/registerer/throttled.rs, src/command.rs,
src/collector/throttled.rs, src/metrics.rs, src/server.rs) together with
theorems checking the specified properties against it.

Modelling conventions:
- Rust strings are modelled as `List Char`; byte indexing (`&v[2..]`) is
  modelled as character indexing, which coincides on ASCII data (all inputs
  appearing in theorems are ASCII).  Rust `str::trim` (Unicode whitespace)
  is modelled with `Char.isWhitespace` (ASCII whitespace).
- Machine integers: the parser's `u32` is a `Nat` with an explicit `2 ^ 32`
  bound mirroring `u32::from_str_radix`'s checked arithmetic; gauges
  (`prometheus_client` `Gauge`, an `i64`) are `Int`.
- Fallible code returns `Except`; code that can also panic (the parser's
  unchecked slice `&v[2..]`) returns `PipeResult`, which has an explicit
  `panicked` outcome.
- The `prometheus_client` `Registry` is a list of registered families in
  registration order (`Registry::register` appends and never deduplicates);
  a `Family<Labels, Gauge>` is a total map from the label kind to the gauge
  value, with default 0 (`get_or_create` semantics).
- `text::encode` is an external library call, not repository code, so the
  metrics handler is parameterised by an abstract `encode` function.
- Async functions are modelled as pure state-passing functions; the registry
  mutex is assumed unpoisoned (lock acquisition always succeeds, as a
  poisoned lock panics the process in the source).
-/

/-- Outcome of running a piece of Rust code that may return a value, return
an error (`anyhow::Result`), or panic. -/
inductive PipeResult (α : Type) where
  | ok (a : α)
  | error (msg : List Char)
  | panicked
deriving DecidableEq

/-- The four label values of `ThrottlingKind` (src/metrics/throttled.rs). -/
inductive ThrottlingKind where
  | Undervoltage
  | ArmFrequency
  | Throttled
  | SoftTemperatureLimit
deriving DecidableEq

/-- `ThrottledState` (src/parser/throttled.rs): eight flags decoded from the
`vcgencmd get_throttled` bitmask. -/
structure ThrottledState where
  undervoltage_detected : Bool
  arm_frequency_capped : Bool
  currently_throttled : Bool
  soft_temperature_limit_active : Bool
  undervoltage_has_occurred : Bool
  arm_frequency_capping_has_occurred : Bool
  throttling_has_occurred : Bool
  soft_temperature_limit_has_occurred : Bool
deriving DecidableEq

/-- Rust `str::split_once(sep)`: split at the first occurrence of `sep`,
returning the parts before and after it, or `none` if `sep` is absent. -/
def splitOnce (sep : Char) : List Char → Option (List Char × List Char)
  | [] => none
  | c :: cs =>
    if c = sep then some ([], cs)
    else
      match splitOnce sep cs with
      | none => none
      | some (l, r) => some (c :: l, r)

/-- Rust `str::trim`: drop leading and trailing whitespace. -/
def trimChars (cs : List Char) : List Char :=
  ((cs.dropWhile Char.isWhitespace).reverse.dropWhile Char.isWhitespace).reverse

/-- Rust `char::to_digit(16)`. -/
def hexDigitVal (c : Char) : Option Nat :=
  if ('0') ≤ c ∧ c ≤ ('9') then some (c.toNat - ('0').toNat)
  else if ('a') ≤ c ∧ c ≤ ('f') then some (c.toNat - ('a').toNat + 10)
  else if ('A') ≤ c ∧ c ≤ ('F') then some (c.toNat - ('A').toNat + 10)
  else none

/-- The `u32` range bound. -/
def u32Bound : Nat := 2 ^ 32

/-- Digit-accumulation loop of `u32::from_str_radix(_, 16)`: checked
multiply-and-add, failing on a non-digit or on overflow past `u32`. -/
def parseHexLoop : List Char → Nat → Option Nat
  | [], acc => some acc
  | c :: cs, acc =>
    match hexDigitVal c with
    | none => none
    | some d => if acc * 16 + d < u32Bound then parseHexLoop cs (acc * 16 + d) else none

/-- Rust `u32::from_str_radix(s, 16)`: an optional leading plus sign followed
by at least one hexadecimal digit; a minus sign is not a digit and fails. -/
def parseHexU32 : List Char → Option Nat
  | [] => none
  | c :: cs =>
    if c = ('+') then
      match cs with
      | [] => none
      | _ :: _ => parseHexLoop cs 0
    else parseHexLoop (c :: cs) 0

/-- The parser's error message `format!("invalid input: {input}")`. -/
def invalidInputMsg (input : List Char) : List Char :=
  ("invalid input: ").data ++ input

/-- `ThrottledParser::parse` (src/parser/throttled.rs lines 24-45): trim the
input, split once on the equals sign (no split yields the invalid-input
error), then decode `&v[2..]` as hexadecimal `u32` (the two-character prefix
is sliced off unchecked: if the right-hand side is shorter than two
characters the byte-range slice panics) and project the bits onto the eight
flags as `decimal & 1 << i != 0`. -/
def ThrottledParser.parse (input : List Char) : PipeResult ThrottledState :=
  match splitOnce ('=') (trimChars input) with
  | none => .error (invalidInputMsg input)
  | some (_, v) =>
    if v.length < 2 then .panicked
    else
      match parseHexU32 (v.drop 2) with
      | none => .error (invalidInputMsg input)
      | some decimal =>
        .ok {
          undervoltage_detected := decimal &&& (1 <<< 0) != 0,
          arm_frequency_capped := decimal &&& (1 <<< 1) != 0,
          currently_throttled := decimal &&& (1 <<< 2) != 0,
          soft_temperature_limit_active := decimal &&& (1 <<< 3) != 0,
          undervoltage_has_occurred := decimal &&& (1 <<< 16) != 0,
          arm_frequency_capping_has_occurred := decimal &&& (1 <<< 17) != 0,
          throttling_has_occurred := decimal &&& (1 <<< 18) != 0,
          soft_temperature_limit_has_occurred := decimal &&& (1 <<< 19) != 0 }

/-- One family registered in the `prometheus_client` `Registry`: its metric
name, help text, and the family's label-to-gauge map. -/
structure RegistryEntry where
  name : List Char
  help : List Char
  family : ThrottlingKind → Int

/-- The shared `Registry`: families in registration order (`register`
appends, without deduplication). -/
abbrev Registry := List RegistryEntry

/-- `Gauge::set`: overwrite one label's gauge value. -/
def gaugeSet (f : ThrottlingKind → Int) (k : ThrottlingKind) (v : Int) : ThrottlingKind → Int :=
  fun k2 => if k2 = k then v else f k2

/-- `Gauge::inc`: increment one label's gauge value. -/
def gaugeInc (f : ThrottlingKind → Int) (k : ThrottlingKind) : ThrottlingKind → Int :=
  fun k2 => if k2 = k then f k2 + 1 else f k2

/-- Rust `bool::into::<i64>()`. -/
def boolToInt (b : Bool) : Int := if b then 1 else 0

/-- One occurred-family block of `ThrottledRegisterer::register`:
`if flag && metric.get() == 0 then metric.inc()`. -/
def latchOccurred (f : ThrottlingKind → Int) (k : ThrottlingKind) (flag : Bool) :
    ThrottlingKind → Int :=
  if flag && (f k == 0) then gaugeInc f k else f

/-- `ThrottledRegisterer::register` (src/registerer/throttled.rs lines
18-71), as the registry transformation it performs: create two fresh
families (all gauges at the default 0), register both into the shared
registry (appending new entries), set the four active gauges unconditionally
from the instantaneous flags, and run the occurred latch for each kind on
the freshly created occurred family. -/
def ThrottledRegisterer.registerRun (registry : Registry) (state : ThrottledState) : Registry :=
  let active0 : ThrottlingKind → Int := fun _ => 0
  let occurred0 : ThrottlingKind → Int := fun _ => 0
  let active1 := gaugeSet active0 ThrottlingKind.Undervoltage (boolToInt state.undervoltage_detected)
  let active2 := gaugeSet active1 ThrottlingKind.ArmFrequency (boolToInt state.arm_frequency_capped)
  let active3 := gaugeSet active2 ThrottlingKind.Throttled (boolToInt state.currently_throttled)
  let active4 := gaugeSet active3 ThrottlingKind.SoftTemperatureLimit (boolToInt state.soft_temperature_limit_active)
  let occurred1 := latchOccurred occurred0 ThrottlingKind.Undervoltage state.undervoltage_has_occurred
  let occurred2 := latchOccurred occurred1 ThrottlingKind.ArmFrequency state.arm_frequency_capping_has_occurred
  let occurred3 := latchOccurred occurred2 ThrottlingKind.Throttled state.throttling_has_occurred
  let occurred4 := latchOccurred occurred3 ThrottlingKind.SoftTemperatureLimit state.soft_temperature_limit_has_occurred
  registry ++
    [⟨("raspi_throttling_active").data, ("State about throttling active currently").data, active4⟩,
     ⟨("raspi_throttling_occurred").data, ("State about throttling occurred in the past").data, occurred4⟩]

/-- `ThrottledRegisterer::register` with its declared fallible result type
(`anyhow::Result<()>`): the body has no error return. -/
def ThrottledRegisterer.register (registry : Registry) (state : ThrottledState) :
    Except (List Char) Registry :=
  .ok (ThrottledRegisterer.registerRun registry state)

/-- The gauge value a scraper would attribute to a label under a family
name: the most recently registered entry carrying that name. -/
def currentGauge (name : List Char) (r : Registry) (k : ThrottlingKind) : Option Int :=
  (r.reverse.find? (fun e => e.name == name)).map (fun e => e.family k)

/-- How many registered entries carry a given family name. -/
def countFamilies (name : List Char) (r : Registry) : Nat :=
  (r.filter (fun e => e.name == name)).length

/-- The instantaneous flag of a kind in a `ThrottledState`. -/
def activeFlag (s : ThrottledState) : ThrottlingKind → Bool
  | ThrottlingKind.Undervoltage => s.undervoltage_detected
  | ThrottlingKind.ArmFrequency => s.arm_frequency_capped
  | ThrottlingKind.Throttled => s.currently_throttled
  | ThrottlingKind.SoftTemperatureLimit => s.soft_temperature_limit_active

/-- The historical flag of a kind in a `ThrottledState`. -/
def occurredFlag (s : ThrottledState) : ThrottlingKind → Bool
  | ThrottlingKind.Undervoltage => s.undervoltage_has_occurred
  | ThrottlingKind.ArmFrequency => s.arm_frequency_capping_has_occurred
  | ThrottlingKind.Throttled => s.throttling_has_occurred
  | ThrottlingKind.SoftTemperatureLimit => s.soft_temperature_limit_has_occurred

/-- What the OS reports for one completed child process: its exit code
(`none` when terminated by a signal) and captured standard output.  A
failed spawn is modelled as the absence of any `ProcessOutput`. -/
structure ProcessOutput where
  code : Option Int
  stdout : List Char

/-- `ExitStatus::success()`: the exit code is zero. -/
def ProcessOutput.success (o : ProcessOutput) : Bool := o.code == some 0

/-- `CommandExecutor::execute` (src/command.rs lines 39-54): spawn failure
yields the command-execution-error context; a non-success status is reported
with its exit code, or as signal termination when there is none; otherwise
the captured stdout is returned.  (The `{self:?}` debug suffix of the
messages and the UTF-8 re-decoding of stdout are omitted: stdout is already
character data in this model.) -/
def CommandExecutor.execute (proc : Option ProcessOutput) : Except (List Char) (List Char) :=
  match proc with
  | none => .error (("command execution error").data)
  | some output =>
    if output.success then .ok output.stdout
    else
      match output.code with
      | some c => .error (("process exited with status code ").data ++ (toString c).data)
      | none => .error (("process terminated by signal").data)

/-- The three pipeline stages of `Throttled::collect`, used to record which
stages a given run reaches. -/
inductive Stage where
  | exec
  | parse
  | register
deriving DecidableEq

/-- `Throttled::collect` (src/collector/throttled.rs lines 34-46), with the
list of stages the run reached: `executor.execute()?`, then
`parser.parse(&output)?`, then `registerer.register(state)?`, each question
mark aborting the poll. -/
def Throttled.collectTraced (proc : Option ProcessOutput) (registry : Registry) :
    PipeResult Registry × List Stage :=
  match CommandExecutor.execute proc with
  | .error e => (.error e, [Stage.exec])
  | .ok output =>
    match ThrottledParser.parse output with
    | .panicked => (.panicked, [Stage.exec, Stage.parse])
    | .error e => (.error e, [Stage.exec, Stage.parse])
    | .ok state =>
      match ThrottledRegisterer.register registry state with
      | .error e => (.error e, [Stage.exec, Stage.parse, Stage.register])
      | .ok registry2 => (.ok registry2, [Stage.exec, Stage.parse, Stage.register])

/-- `Throttled::collect`, result only. -/
def Throttled.collect (proc : Option ProcessOutput) (registry : Registry) : PipeResult Registry :=
  (Throttled.collectTraced proc registry).1

/-- The registry as left behind by one poll: updated only when the poll
succeeded (the registry is only ever touched inside the registerer). -/
def Throttled.registryAfter (proc : Option ProcessOutput) (registry : Registry) : Registry :=
  match (Throttled.collectTraced proc registry).1 with
  | PipeResult.ok registry2 => registry2
  | _ => registry

/-- `MetricsHandler::handle` (src/metrics.rs lines 43-56): when the
throttled collector is configured, run it and wrap any failure with
`format!("{} collector error", collector.name())` via `with_context` before
propagating it with the question mark; only then encode the registry.
`text::encode` is an external library call, so it is passed in abstractly;
its own failure propagates unwrapped. -/
def MetricsHandler.handle (encode : Registry → Except (List Char) (List Char))
    (throttled : Option (Option ProcessOutput)) (registry : Registry) :
    PipeResult (List Char × Registry) :=
  match throttled with
  | some proc =>
    match Throttled.collect proc registry with
    | .panicked => .panicked
    | .error e => .error (("throttled collector error").data ++ (": ").data ++ e)
    | .ok registry2 =>
      match encode registry2 with
      | .error e => .error e
      | .ok text => .ok (text, registry2)
  | none =>
    match encode registry with
    | .error e => .error e
    | .ok text => .ok (text, registry)

/-- An HTTP response as built by the axum handler: status code, the
content-type header when the handler sets one explicitly, and the body. -/
structure HttpResponse where
  status : Nat
  contentType : Option (List Char)
  body : List Char
deriving DecidableEq

/-- The content type set on successful scrapes (src/server.rs line 49). -/
def openmetricsContentType : List Char :=
  ("application/openmetrics-text; version=1.0.0; charset=utf-8").data

/-- The axum route handler `handle` (src/server.rs lines 41-57): a
successful handler result becomes 200 with the OpenMetrics content type and
the serialized body; a failed one is logged (`tracing::error!`, returned
here as the second component) and becomes 500 with an empty body and no
explicitly set content type. -/
def Server.handle (res : Except (List Char) (List Char)) :
    HttpResponse × Option (List Char) :=
  match res with
  | .ok body => (⟨200, some openmetricsContentType, body⟩, none)
  | .error e => (⟨500, none, []⟩, some e)

/-- One full `GET /metrics` scrape: `MetricsHandler::handle` composed with
the route handler.  A panic inside the handler task produces no response
(`none`). -/
def scrape (encode : Registry → Except (List Char) (List Char))
    (throttled : Option (Option ProcessOutput)) (registry : Registry) :
    Option (HttpResponse × Option (List Char)) :=
  match MetricsHandler.handle encode throttled registry with
  | .panicked => none
  | .error e => some (Server.handle (.error e))
  | .ok (text, _) => some (Server.handle (.ok text))

/-- One hexadecimal digit character, lower case, as produced by Rust's
`format!("{:x}", _)`. -/
def hexChar (d : Nat) : Char :=
  if d < 10 then Char.ofNat (48 + d) else Char.ofNat (87 + d)

/-- The hexadecimal digit characters of a positive number, most significant
first (empty for zero). -/
def toHexList (n : Nat) : List Char :=
  if h : n = 0 then [] else toHexList (n / 16) ++ [hexChar (n % 16)]
termination_by n
decreasing_by exact Nat.div_lt_self (Nat.pos_of_ne_zero h) (by omega)

/-- Rust `format!("{:x}", n)`: lower-case hexadecimal, no leading zeros,
a single zero digit for zero. -/
def toHex (n : Nat) : List Char :=
  if n = 0 then [('0')] else toHexList n

/-! ## Helper lemmas -/

lemma hexDigitVal_hexChar (d : Nat) (h : d < 16) : hexDigitVal (hexChar d) = some d := by
  interval_cases d <;> decide

lemma hexChar_props (d : Nat) (h : d < 16) :
    (hexChar d).isWhitespace = false ∧ hexChar d ≠ ('=') ∧ hexChar d ≠ ('+') := by
  interval_cases d <;> decide

lemma parseHexLoop_append (l1 l2 : List Char) (acc : Nat) :
    parseHexLoop (l1 ++ l2) acc = (parseHexLoop l1 acc).bind (fun a => parseHexLoop l2 a) := by
  induction l1 generalizing acc with
  | nil => simp [parseHexLoop]
  | cons c cs ih =>
    simp only [List.cons_append, parseHexLoop]
    cases hexDigitVal c with
    | none => simp
    | some d =>
      by_cases hb : acc * 16 + d < u32Bound
      · simp [hb, ih]
      · simp [hb]

lemma toHexList_mem (n : Nat) (c : Char) (hc : c ∈ toHexList n) :
    ∃ d, d < 16 ∧ c = hexChar d := by
  induction n using Nat.strong_induction_on with
  | _ n ih =>
    rw [toHexList] at hc
    by_cases h : n = 0
    · simp [h] at hc
    · simp only [h, dite_false] at hc
      rcases List.mem_append.mp hc with h1 | h2
      · exact ih (n / 16) (Nat.div_lt_self (Nat.pos_of_ne_zero h) (by omega)) h1
      · simp only [List.mem_singleton] at h2
        exact ⟨n % 16, Nat.mod_lt n (by omega), h2⟩

lemma parseHexLoop_toHexList : ∀ n, n < u32Bound → parseHexLoop (toHexList n) 0 = some n := by
  intro n
  induction n using Nat.strong_induction_on with
  | _ n ih =>
    intro h
    rw [toHexList]
    by_cases h0 : n = 0
    · simp [h0, parseHexLoop]
    · simp only [h0, dite_false]
      rw [parseHexLoop_append,
        ih (n / 16) (Nat.div_lt_self (Nat.pos_of_ne_zero h0) (by omega))
          (lt_of_le_of_lt (Nat.div_le_self n 16) h)]
      simp only [Option.some_bind, parseHexLoop,
        hexDigitVal_hexChar (n % 16) (Nat.mod_lt n (by omega))]
      have hn : n / 16 * 16 + n % 16 = n := by omega
      rw [hn, if_pos h]

lemma toHexList_ne_nil (n : Nat) (h : n ≠ 0) : toHexList n ≠ [] := by
  rw [toHexList]
  simp [h]

lemma parseHexU32_toHex (n : Nat) (h : n < u32Bound) : parseHexU32 (toHex n) = some n := by
  by_cases h0 : n = 0
  · subst h0; decide
  · rw [toHex, if_neg h0]
    cases hl : toHexList n with
    | nil => exact absurd hl (toHexList_ne_nil n h0)
    | cons c cs =>
      have hc : c ∈ toHexList n := by rw [hl]; exact List.mem_cons_self _ _
      obtain ⟨d, hd, rfl⟩ := toHexList_mem n c hc
      have hplus : hexChar d ≠ ('+') := (hexChar_props d hd).2.2
      simp only [parseHexU32, if_neg hplus]
      rw [← hl, parseHexLoop_toHexList n h]

lemma bitTest_eq (v i : Nat) : (v &&& (1 <<< i) != 0) = ((v >>> i) &&& 1 != 0) := by
  have h1 : v &&& (1 <<< i) = (v.testBit i).toNat * 2 ^ i := by
    rw [Nat.shiftLeft_eq, one_mul, Nat.and_two_pow]
  have h2 : ((v >>> i) &&& 1 != 0) = v.testBit i := by
    rw [Nat.and_comm]; rfl
  rw [h1, h2]
  cases htb : v.testBit i <;> simp [htb, Nat.pos_iff_ne_zero.mp (Nat.two_pow_pos i)]

lemma dropWhile_eq_self_of (p : Char → Bool) (l : List Char) (h : ∀ c ∈ l, p c = false) :
    l.dropWhile p = l := by
  cases l with
  | nil => rfl
  | cons c cs => simp [List.dropWhile, h c (List.mem_cons_self c cs)]

lemma trimChars_eq_self (l : List Char) (h : ∀ c ∈ l, c.isWhitespace = false) :
    trimChars l = l := by
  unfold trimChars
  rw [dropWhile_eq_self_of _ l h,
    dropWhile_eq_self_of _ l.reverse (fun c hc => h c (List.mem_reverse.mp hc)),
    List.reverse_reverse]

lemma splitOnce_append (sep : Char) (l1 l2 : List Char) (h : sep ∉ l1) :
    splitOnce sep (l1 ++ sep :: l2) = some (l1, l2) := by
  induction l1 with
  | nil => simp [splitOnce]
  | cons c cs ih =>
    have hc : ¬ c = sep := fun he => h (he ▸ List.mem_cons_self c cs)
    have hcs : sep ∉ cs := fun hm => h (List.mem_cons_of_mem c hm)
    simp [splitOnce, hc, ih hcs]

/-! ## Claim theorems -/

/-- Claim C1 (divergence witness): the occurred-family gauge is NOT
monotonically non-decreasing across a sequence of `register` calls.  Because
every call creates and registers a fresh occurred family whose gauges start
at 0, after registering a state with the undervoltage historical flag true
the current occurred gauge for undervoltage is 1, but registering a further
state with that flag false leaves the newest occurred family's gauge at 0:
the latch does not persist across polls. -/
theorem C1_latch_lost_across_polls :
    currentGauge (("raspi_throttling_occurred").data)
        (ThrottledRegisterer.registerRun []
          ⟨false, false, false, false, true, false, false, false⟩)
        ThrottlingKind.Undervoltage = some 1 ∧
    currentGauge (("raspi_throttling_occurred").data)
        (ThrottledRegisterer.registerRun
          (ThrottledRegisterer.registerRun []
            ⟨false, false, false, false, true, false, false, false⟩)
          ⟨false, false, false, false, false, false, false, false⟩)
        ThrottlingKind.Undervoltage = some 0 := by
  constructor <;> decide

/-- Claim C3 (divergence witness): the two metric families are NOT
registered exactly once for the process lifetime: every invocation of
`register` appends a fresh `raspi_throttling_active` entry and a fresh
`raspi_throttling_occurred` entry to the shared registry, so after two
invocations the registry holds two family definitions under each name. -/
theorem C3_families_registered_per_call :
    countFamilies (("raspi_throttling_active").data)
        (ThrottledRegisterer.registerRun
          (ThrottledRegisterer.registerRun []
            ⟨false, false, false, false, false, false, false, false⟩)
          ⟨false, false, false, false, false, false, false, false⟩) = 2 ∧
    countFamilies (("raspi_throttling_occurred").data)
        (ThrottledRegisterer.registerRun
          (ThrottledRegisterer.registerRun []
            ⟨false, false, false, false, false, false, false, false⟩)
          ⟨false, false, false, false, false, false, false, false⟩) = 2 := by
  constructor <;> decide

/-- Claim C4 (divergence witness): `ThrottledParser::parse` does NOT return
a typed error on every input: on `"a="` the unchecked slice `&v[2..]` is out
of range and the parser panics.  The three inputs named by the claim
(`"garbage"`, `"throttled=0xzz"`, `""`) do produce the typed
`invalid input: <line>` error. -/
theorem C4_parse_panics_on_short_rhs :
    ThrottledParser.parse (("a=").data) = PipeResult.panicked ∧
    ThrottledParser.parse (("garbage").data) =
      PipeResult.error (("invalid input: garbage").data) ∧
    ThrottledParser.parse (("throttled=0xzz").data) =
      PipeResult.error (("invalid input: throttled=0xzz").data) ∧
    ThrottledParser.parse ([]) = PipeResult.error (("invalid input: ").data) := by
  refine ⟨by decide, by decide, by decide, by decide⟩

/-- Claim C5 (counterexample): an input whose right-hand side lacks the
`"0x"` prefix is not necessarily rejected: the parser slices off the first
two characters of the right-hand side without checking them, so
`"throttled=zz05"` parses successfully as the value `0x05`. -/
theorem C5_counterexample_prefix_not_checked :
    ThrottledParser.parse (("throttled=zz05").data) =
      PipeResult.ok ⟨true, false, true, false, false, false, false, false⟩ := by
  decide

/-- Claim C5 (amended): `ThrottledParser::parse` returns an error exactly
when the trimmed input contains no `=`, or the portion after the first `=`
has at least two characters and the remainder after removing its first two
characters (whatever they are — the `0x` prefix is never verified) is not
valid hexadecimal for an unsigned 32-bit integer; when the portion after the
first `=` is shorter than two characters the parser panics instead of
returning.  Every returned error carries the message
`invalid input: <line>` with the original input embedded. -/
theorem C5_amended_error_characterization (input : List Char) :
    ((∃ msg, ThrottledParser.parse input = PipeResult.error msg) ↔
      (splitOnce ('=') (trimChars input) = none ∨
        ∃ l v, splitOnce ('=') (trimChars input) = some (l, v) ∧ 2 ≤ v.length ∧
          parseHexU32 (v.drop 2) = none)) ∧
    (∀ msg, ThrottledParser.parse input = PipeResult.error msg →
      msg = invalidInputMsg input) := by
  unfold ThrottledParser.parse
  cases hs : splitOnce ('=') (trimChars input) with
  | none =>
    refine ⟨⟨fun _ => Or.inl rfl, fun _ => ⟨invalidInputMsg input, rfl⟩⟩, ?_⟩
    intro msg hmsg
    cases hmsg
    rfl
  | some p =>
    obtain ⟨l, v⟩ := p
    dsimp only
    by_cases hlen : v.length < 2
    · rw [if_pos hlen]
      refine ⟨⟨fun hex => ?_, fun hor => ?_⟩, fun msg hmsg => by cases hmsg⟩
      · obtain ⟨msg, hmsg⟩ := hex
        cases hmsg
      · rcases hor with hnone | ⟨l2, v2, hlv, hle, _⟩
        · cases hnone
        · injection hlv with hp
          have hv : v = v2 := congrArg Prod.snd hp
          rw [← hv] at hle
          omega
    · rw [if_neg hlen]
      cases hh : parseHexU32 (v.drop 2) with
      | none =>
        refine ⟨⟨fun _ => Or.inr ⟨l, v, rfl, by omega, hh⟩, fun _ => ⟨invalidInputMsg input, rfl⟩⟩, ?_⟩
        intro msg hmsg
        cases hmsg
        rfl
      | some d =>
        refine ⟨⟨fun hex => ?_, fun hor => ?_⟩, fun msg hmsg => by cases hmsg⟩
        · obtain ⟨msg, hmsg⟩ := hex
          cases hmsg
        · rcases hor with hnone | ⟨l2, v2, hlv, _, hhex⟩
          · cases hnone
          · injection hlv with hp
            have hv : v = v2 := congrArg Prod.snd hp
            rw [← hv] at hhex
            rw [hh] at hhex
            cases hhex

/-- Claim C5 (witness): the amended characterization applied to the
concrete input `"garbage"`, which contains no `=` and therefore yields the
typed error with the original line embedded. -/
theorem C5_witness :
    ThrottledParser.parse (("garbage").data) =
      PipeResult.error (("invalid input: garbage").data) := by
  obtain ⟨msg, hmsg⟩ :=
    (C5_amended_error_characterization (("garbage").data)).1.mpr (Or.inl (by decide))
  have h2 := (C5_amended_error_characterization (("garbage").data)).2 msg hmsg
  rw [h2] at hmsg
  exact hmsg

/-- Claim C2 (counterexample): when the configured collector fails (here:
the external command exits with status 1), `MetricsHandler::handle` does NOT
return the serialized registry text: it returns the collector's failure,
wrapped with the collector's name, even though the supplied encoder would
have produced a serialization successfully. -/
theorem C2_counterexample :
    MetricsHandler.handle (fun _ => Except.ok (("SERIALIZED").data))
        (some (some ⟨some 1, ("throttled=0x0").data⟩)) [] =
      PipeResult.error
        (("throttled collector error: process exited with status code 1").data) := by
  rfl

/-- Claim C2 (amended): when the configured collector's `collect()` returns
an error, `MetricsHandler::handle` wraps it with the collector's name
(`"throttled collector error"`) and returns the error — propagating the
failure to the HTTP layer instead of serializing; only when the collector
succeeds does it return the serialized text of what the registry then
holds. -/
theorem C2_amended_handle_propagates
    (encode : Registry → Except (List Char) (List Char))
    (proc : Option ProcessOutput) (r : Registry) :
    (∀ e, Throttled.collect proc r = PipeResult.error e →
      MetricsHandler.handle encode (some proc) r =
        PipeResult.error (("throttled collector error").data ++ (": ").data ++ e)) ∧
    (∀ r2 t, Throttled.collect proc r = PipeResult.ok r2 → encode r2 = Except.ok t →
      MetricsHandler.handle encode (some proc) r = PipeResult.ok (t, r2)) := by
  constructor
  · intro e he
    unfold MetricsHandler.handle
    dsimp only
    rw [he]
  · intro r2 t h1 h2
    unfold MetricsHandler.handle
    dsimp only
    rw [h1]
    dsimp only
    rw [h2]

/-- Claim C2 (witness): the amended statement applied to a concrete failed
collection — a spawn failure — with a trivially succeeding encoder. -/
theorem C2_witness :
    MetricsHandler.handle (fun _ => Except.ok []) (some none) [] =
      PipeResult.error
        (("throttled collector error").data ++ (": ").data ++
          ("command execution error").data) := by
  exact (C2_amended_handle_propagates (fun _ => Except.ok []) none []).1 _ (by rfl)

/-- Claim C7: after every call to `register`, the active-family gauge (of
the family the call just registered, which is the most recently registered
`raspi_throttling_active` entry) equals the state's instantaneous flag for
each kind, 0 or 1, regardless of anything previously in the registry: the
active gauges written by a poll reflect only that poll. -/
theorem C7_active_freshness (r : Registry) (s : ThrottledState) (k : ThrottlingKind) :
    currentGauge (("raspi_throttling_active").data) (ThrottledRegisterer.registerRun r s) k =
      some (boolToInt (activeFlag s k)) := by
  unfold currentGauge ThrottledRegisterer.registerRun
  have hne : ((("raspi_throttling_occurred").data == ("raspi_throttling_active").data) = false) := by
    decide
  have heq : ((("raspi_throttling_active").data == ("raspi_throttling_active").data) = true) := by
    decide
  simp only [List.reverse_append, List.reverse_cons, List.reverse_nil, List.nil_append,
    List.cons_append, List.find?, hne, heq]
  cases k <;> simp [gaugeSet, activeFlag, boolToInt]

/-- Claim C10: `ThrottledRegisterer::register` never returns an error: its
body has no failing path (under an unpoisoned registry lock, which the model
assumes), so every call yields a success, and in `Throttled::collect` a
failing poll never has the register stage in its trace — the error branch of
the registerer's declared result type is unreachable at that call site. -/
theorem C10_register_never_errors (r : Registry) (s : ThrottledState)
    (proc : Option ProcessOutput) :
    (∃ r2, ThrottledRegisterer.register r s = Except.ok r2) ∧
    (∀ e, (Throttled.collectTraced proc r).1 = PipeResult.error e →
      Stage.register ∉ (Throttled.collectTraced proc r).2) := by
  constructor
  · exact ⟨ThrottledRegisterer.registerRun r s, rfl⟩
  · intro e he
    unfold Throttled.collectTraced at he ⊢
    cases hx : CommandExecutor.execute proc with
    | error e2 =>
      dsimp only
      decide
    | ok out =>
      rw [hx] at he
      dsimp only at he
      dsimp only
      cases hp : ThrottledParser.parse out with
      | panicked =>
        rw [hp] at he
        dsimp only at he
        exact absurd he (by simp)
      | error e2 =>
        dsimp only
        decide
      | ok state =>
        rw [hp] at he
        dsimp only [ThrottledRegisterer.register] at he
        exact absurd he (by simp)

/-- Claim C10 (witness): the registerer succeeds at a concrete state and
registry. -/
theorem C10_witness :
    ∃ r2, ThrottledRegisterer.register []
        ⟨false, false, false, false, false, false, false, false⟩ = Except.ok r2 :=
  (C10_register_never_errors []
    ⟨false, false, false, false, false, false, false, false⟩ none).1

lemma toHex_mem (n : Nat) (c : Char) (hc : c ∈ toHex n) : ∃ d, d < 16 ∧ c = hexChar d := by
  unfold toHex at hc
  by_cases h0 : n = 0
  · rw [if_pos h0] at hc
    simp only [List.mem_singleton] at hc
    exact ⟨0, by omega, by rw [hc]; rfl⟩
  · rw [if_neg h0] at hc
    exact toHexList_mem n c hc

/-- One case split over the stages of `Throttled::collect`: a run either
stops at the executor with its error, or reaches the parser and stops with
its panic or error, or reaches the registerer and succeeds. -/
lemma collectTraced_cases (proc : Option ProcessOutput) (r : Registry) :
    (∃ e, CommandExecutor.execute proc = Except.error e ∧
      Throttled.collectTraced proc r = (PipeResult.error e, [Stage.exec])) ∨
    (∃ out, CommandExecutor.execute proc = Except.ok out ∧
      ((ThrottledParser.parse out = PipeResult.panicked ∧
        Throttled.collectTraced proc r = (PipeResult.panicked, [Stage.exec, Stage.parse])) ∨
       (∃ e, ThrottledParser.parse out = PipeResult.error e ∧
        Throttled.collectTraced proc r = (PipeResult.error e, [Stage.exec, Stage.parse])) ∨
       (∃ s, ThrottledParser.parse out = PipeResult.ok s ∧
        Throttled.collectTraced proc r =
          (PipeResult.ok (ThrottledRegisterer.registerRun r s),
            [Stage.exec, Stage.parse, Stage.register])))) := by
  unfold Throttled.collectTraced
  cases hx : CommandExecutor.execute proc with
  | error e => exact Or.inl ⟨e, rfl, rfl⟩
  | ok out =>
    dsimp only
    refine Or.inr ⟨out, rfl, ?_⟩
    cases hp : ThrottledParser.parse out with
    | panicked => exact Or.inl ⟨rfl, rfl⟩
    | error e => exact Or.inr (Or.inl ⟨e, rfl, rfl⟩)
    | ok s => exact Or.inr (Or.inr ⟨s, rfl, rfl⟩)

/-- Claim C6: for every 32-bit value, parsing `throttled=0x<hex(v)>` yields
the `ThrottledState` whose eight flags, in field order, are the bit tests
`(v >>> i) &&& 1 != 0` for i in {0,1,2,3,16,17,18,19}; all other bits of the
word are ignored. -/
theorem C6_bit_decode (v : Nat) (h : v < 2 ^ 32) :
    ThrottledParser.parse (("throttled=0x").data ++ toHex v) =
      PipeResult.ok
        ⟨((v >>> 0) &&& 1 != 0), ((v >>> 1) &&& 1 != 0), ((v >>> 2) &&& 1 != 0),
          ((v >>> 3) &&& 1 != 0), ((v >>> 16) &&& 1 != 0), ((v >>> 17) &&& 1 != 0),
          ((v >>> 18) &&& 1 != 0), ((v >>> 19) &&& 1 != 0)⟩ := by
  have hb : v < u32Bound := h
  have hlit : ∀ c ∈ ("throttled=0x").data, c.isWhitespace = false := by decide
  have hmem : ∀ c ∈ ("throttled=0x").data ++ toHex v, c.isWhitespace = false := by
    intro c hc
    rcases List.mem_append.mp hc with h1 | h2
    · exact hlit c h1
    · rcases toHex_mem v c h2 with ⟨d, hd, rfl⟩
      exact (hexChar_props d hd).1
  have htrim := trimChars_eq_self _ hmem
  have hshape : ("throttled=0x").data ++ toHex v =
      ("throttled").data ++ ('=') :: (('0') :: ('x') :: toHex v) := rfl
  have hsplit : splitOnce ('=') (("throttled=0x").data ++ toHex v) =
      some (("throttled").data, ('0') :: ('x') :: toHex v) := by
    rw [hshape]
    exact splitOnce_append ('=') (("throttled").data) _ (by decide)
  unfold ThrottledParser.parse
  rw [htrim, hsplit]
  dsimp only
  rw [if_neg (by simp)]
  rw [show List.drop 2 (('0') :: ('x') :: toHex v) = toHex v from rfl]
  rw [parseHexU32_toHex v hb]
  dsimp only
  simp only [bitTest_eq]

/-- Claim C6 (witness): the bit-decode theorem at the concrete value
`0x50005`, giving exactly the four flags the claim names. -/
theorem C6_witness :
    (0x50005 : Nat) < 2 ^ 32 ∧
    ThrottledParser.parse (("throttled=0x").data ++ toHex 0x50005) =
      PipeResult.ok ⟨true, false, true, false, true, false, true, false⟩ := by
  refine ⟨by norm_num, ?_⟩
  rw [C6_bit_decode 0x50005 (by norm_num)]
  decide

/-- Claim C8: `Throttled::collect` runs executor, parser and registerer
strictly in sequence (its stage trace is always a prefix of
exec-parse-register); an executor error aborts the poll before the parser
runs, a parse error aborts it before the registerer runs, on any failed poll
the registry is left unchanged, and the failure reaches the handler wrapped
with the collector's name. -/
theorem C8_pipeline_sequencing (proc : Option ProcessOutput) (r : Registry) :
    ((Throttled.collectTraced proc r).2 = [Stage.exec] ∨
      (Throttled.collectTraced proc r).2 = [Stage.exec, Stage.parse] ∨
      (Throttled.collectTraced proc r).2 = [Stage.exec, Stage.parse, Stage.register]) ∧
    (∀ e, CommandExecutor.execute proc = Except.error e →
      Throttled.collectTraced proc r = (PipeResult.error e, [Stage.exec])) ∧
    (∀ out e, CommandExecutor.execute proc = Except.ok out →
      ThrottledParser.parse out = PipeResult.error e →
      Throttled.collectTraced proc r = (PipeResult.error e, [Stage.exec, Stage.parse])) ∧
    (∀ e, (Throttled.collectTraced proc r).1 = PipeResult.error e →
      Throttled.registryAfter proc r = r) ∧
    (∀ e encode, (Throttled.collectTraced proc r).1 = PipeResult.error e →
      MetricsHandler.handle encode (some proc) r =
        PipeResult.error (("throttled collector error").data ++ (": ").data ++ e)) := by
  have hwrap : ∀ e encode, Throttled.collect proc r = PipeResult.error e →
      MetricsHandler.handle encode (some proc) r =
        PipeResult.error (("throttled collector error").data ++ (": ").data ++ e) := by
    intro e encode he
    unfold MetricsHandler.handle
    dsimp only
    rw [he]
  rcases collectTraced_cases proc r with ⟨e, hx, hc⟩ | ⟨out, hx, hcase⟩
  · refine ⟨Or.inl (by rw [hc]), ?_, ?_, ?_, ?_⟩
    · intro e2 hx2
      rw [hx] at hx2
      injection hx2 with he2
      rw [← he2]
      exact hc
    · intro out e2 hx2 _
      rw [hx] at hx2
      cases hx2
    · intro e2 _
      unfold Throttled.registryAfter
      rw [hc]
    · intro e2 encode h1
      rw [hc] at h1
      dsimp only at h1
      injection h1 with he2
      rw [← he2]
      exact hwrap e encode (by unfold Throttled.collect; rw [hc])
  · rcases hcase with ⟨hp, hc⟩ | ⟨e, hp, hc⟩ | ⟨s, hp, hc⟩
    · refine ⟨Or.inr (Or.inl (by rw [hc])), ?_, ?_, ?_, ?_⟩
      · intro e2 hx2
        rw [hx] at hx2
        cases hx2
      · intro out2 e2 hx2 hp2
        rw [hx] at hx2
        injection hx2 with ho
        rw [← ho] at hp2
        rw [hp] at hp2
        cases hp2
      · intro e2 h1
        rw [hc] at h1
        cases h1
      · intro e2 encode h1
        rw [hc] at h1
        cases h1
    · refine ⟨Or.inr (Or.inl (by rw [hc])), ?_, ?_, ?_, ?_⟩
      · intro e2 hx2
        rw [hx] at hx2
        cases hx2
      · intro out2 e2 hx2 hp2
        rw [hx] at hx2
        injection hx2 with ho
        rw [← ho] at hp2
        rw [hp] at hp2
        injection hp2 with he2
        rw [← he2]
        exact hc
      · intro e2 _
        unfold Throttled.registryAfter
        rw [hc]
      · intro e2 encode h1
        rw [hc] at h1
        dsimp only at h1
        injection h1 with he2
        rw [← he2]
        exact hwrap e encode (by unfold Throttled.collect; rw [hc])
    · refine ⟨Or.inr (Or.inr (by rw [hc])), ?_, ?_, ?_, ?_⟩
      · intro e2 hx2
        rw [hx] at hx2
        cases hx2
      · intro out2 e2 hx2 hp2
        rw [hx] at hx2
        injection hx2 with ho
        rw [← ho] at hp2
        rw [hp] at hp2
        cases hp2
      · intro e2 h1
        rw [hc] at h1
        cases h1
      · intro e2 encode h1
        rw [hc] at h1
        cases h1

/-- Claim C8 (witness): with a command that exits with status 2, the poll
aborts at the executor stage: the parser and registerer never run and the
trace contains only the exec stage. -/
theorem C8_witness :
    Throttled.collectTraced (some ⟨some 2, []⟩) [] =
      (PipeResult.error (("process exited with status code 2").data), [Stage.exec]) := by
  exact (C8_pipeline_sequencing (some ⟨some 2, []⟩) []).2.1 _ (by rfl)

/-- Claim C9: the HTTP route handler responds 200 with the OpenMetrics
content type and the serialized body exactly on handler success, and 500
with an empty body on handler failure, the error being logged server-side
and never included in the response body; in particular a scrape whose
external command exits with a nonzero code yields 500 with an empty body. -/
theorem C9_http_mapping :
    (∀ body, Server.handle (Except.ok body) =
      (⟨200, some openmetricsContentType, body⟩, none)) ∧
    (∀ e, Server.handle (Except.error e) = (⟨500, none, []⟩, some e)) ∧
    (∀ encode r out c, c ≠ 0 →
      scrape encode (some (some ⟨some c, out⟩)) r =
        some (⟨500, none, []⟩,
          some ((("throttled collector error").data ++ (": ").data ++
            (("process exited with status code ").data ++ (toString c).data))))) := by
  refine ⟨fun body => rfl, fun e => rfl, ?_⟩
  intro encode r out c hc
  have hsucc : ProcessOutput.success ⟨some c, out⟩ = false := by
    simp only [ProcessOutput.success]
    simp [hc]
  have hx : CommandExecutor.execute (some ⟨some c, out⟩) =
      Except.error (("process exited with status code ").data ++ (toString c).data) := by
    unfold CommandExecutor.execute
    dsimp only
    rw [hsucc]
    rfl
  have hcol : Throttled.collect (some ⟨some c, out⟩) r =
      PipeResult.error (("process exited with status code ").data ++ (toString c).data) := by
    unfold Throttled.collect Throttled.collectTraced
    rw [hx]
  have hh : MetricsHandler.handle encode (some (some ⟨some c, out⟩)) r =
      PipeResult.error ((("throttled collector error").data ++ (": ").data ++
        (("process exited with status code ").data ++ (toString c).data))) := by
    unfold MetricsHandler.handle
    dsimp only
    rw [hcol]
  unfold scrape
  rw [hh]
  rfl

/-- Claim C9 (witness): the mapping at a concrete failing command (exit
status 1): the scrape is 500 with an empty body, and the wrapped error is
logged, not returned. -/
theorem C9_witness :
    scrape (fun _ => Except.ok []) (some (some ⟨some 1, []⟩)) [] =
      some (⟨500, none, []⟩,
        some (("throttled collector error: process exited with status code 1").data)) := by
  rw [(C9_http_mapping).2.2 (fun _ => Except.ok []) [] [] 1 (by decide)]
  decide
